import Mathlib

/-!
Verification development for the DESI_linefitting emission-line fitting code.

The Python sources embedded here are `fit_lines.py`, `emline_fitting.py` and
`emline_params.py`.  The nonlinear optimizer (astropy's `LevMarLSQFitter`) is an
external library: every embedded fitting entry point takes the optimizer's
output (the fitted parameter values of each Gaussian component, and the reduced
chi-square values) as input and performs exactly the source's post-fit
computation (role exchange, flag bits, model selection, degrees of freedom).
Parameter ties declared on a model are deterministic constraints that the
optimizer re-evaluates at every step, so a fitted model always lies in the
image of the tie-respecting model builders embedded below.

The helper module `measure_fits` (imported as `mfit`) is not part of the
provided sources; its functions are modelled from the specification, as marked
on each definition.
-/

namespace DesiFit

/-- A single Gaussian component: `(amplitude, mean, stddev)`, over a field `K`
(`ℚ` for the decision logic, `ℝ` where square roots are needed). -/
structure Gauss (K : Type) where
  amplitude : K
  mean : K
  stddev : K
deriving DecidableEq

namespace mfit

/-- Modelled from the spec: the speed of light in km/s used by
`measure_fits.lamspace_to_velspace` (module not included in the sources). -/
def speed_of_light (K : Type) [Field K] : K := 299792458 / 1000

/-- Modelled from the spec: `measure_fits.lamspace_to_velspace`
(`sigma_kms = stddev_lambda / mean_lambda * speed_of_light`; the module is not
included in the sources). -/
def lamspace_to_velspace {K : Type} [Field K] (stddev_lambda mean_lambda : K) : K :=
  stddev_lambda / mean_lambda * speed_of_light K

/-- Modelled from the spec: `measure_fits.velspace_to_lamspace`, the inverse
conversion (the module is not included in the sources). -/
def velspace_to_lamspace {K : Type} [Field K] (sigma_kms mean_lambda : K) : K :=
  sigma_kms * mean_lambda / speed_of_light K

/-- Modelled from the spec: `measure_fits.calculate_red_chi2`
(`sum((observed-model)^2 * inverse_variance) / (n_points - n_free_params)`;
the module is not included in the sources). -/
def calculate_red_chi2 {K : Type} [Field K]
    (observed model ivar : List K) (n_free_params : ℕ) : K :=
  (((observed.zip model).zip ivar).map (fun p => (p.1.1 - p.1.2) ^ 2 * p.2)).sum /
    ((observed.length : K) - (n_free_params : K))

end mfit

/-- Velocity dispersion of a fitted Gaussian, as computed throughout
`fit_lines.py`: `mfit.lamspace_to_velspace(g.stddev.value, g.mean.value)`. -/
def sigmaOf {K : Type} [Field K] (g : Gauss K) : K :=
  mfit.lamspace_to_velspace g.stddev g.mean

/-- `del_rchi2 = ((rchi2_no_broad - rchi2_broad)/rchi2_no_broad)*100`, the
relative chi-square improvement used by every broad-component decision. -/
def del_rchi2 {K : Type} [Field K] (rchi2_no_broad rchi2_broad : K) : K :=
  (rchi2_no_broad - rchi2_broad) / rchi2_no_broad * 100

/-- Result of a broad-vs-no-broad model selection: the returned model is either
the with-broad fit (of type `β`) or the no-broad fit (of type `ν`), together
with its reduced chi-square, mirroring the source's `(gfit, rchi2, ...)`. -/
inductive Chosen (β ν : Type) where
  | broad (gfit : β) (rchi2 : ℚ) : Chosen β ν
  | noBroad (gfit : ν) (rchi2 : ℚ) : Chosen β ν
deriving DecidableEq

/-- Whether the with-broad model was selected. -/
def Chosen.isBroad {β ν : Type} : Chosen β ν → Bool
  | .broad _ _ => true
  | .noBroad _ _ => false

/-- Full return value of a fitting entry point:
`(chosen model + rchi2, flag_bits, n_dof)`. -/
structure FitReturn (β ν : Type) where
  choice : Chosen β ν
  flag_bits : List ℕ
  n_dof : ℕ
deriving DecidableEq

namespace fit_hb_line

/-- No-broad compound model of the one-component Hβ variants
(`hb_cont` amplitude when fit with continuum, plus `hb_n`). -/
structure HbNoBroad1 where
  cont : Option ℚ
  hb_n : Gauss ℚ
deriving DecidableEq

/-- With-broad compound model of the one-component Hβ variants. -/
structure HbBroad1 where
  cont : Option ℚ
  hb_n : Gauss ℚ
  hb_b : Gauss ℚ
deriving DecidableEq

/-- No-broad compound model of the two-component Hβ variants. -/
structure HbNoBroad2 where
  cont : Option ℚ
  hb_n : Gauss ℚ
  hb_out : Gauss ℚ
deriving DecidableEq

/-- With-broad compound model of the two-component Hβ variants.  `cont` is
`none` when the model carries no `hb_cont` term (in particular after the
role-exchange rebuild, which sums only the three Gaussians). -/
structure HbBroad2 where
  cont : Option ℚ
  hb_n : Gauss ℚ
  hb_out : Gauss ℚ
  hb_b : Gauss ℚ
deriving DecidableEq

/-- Selection tail of `fit_hb_line.fit_free_one_component`
(fit_lines.py lines 578-612), applied to the two optimizer results. -/
def fit_free_one_component (gfit_no_broad : HbNoBroad1) (rchi2_no_broad : ℚ)
    (gfit_broad : HbBroad1) (rchi2_broad : ℚ) (fit_cont : Bool) :
    FitReturn HbBroad1 HbNoBroad1 :=
  let del := del_rchi2 rchi2_no_broad rchi2_broad
  let sig_hb_n := sigmaOf gfit_broad.hb_n
  let sig_hb_b := sigmaOf gfit_broad.hb_b
  let flag_bits := List.insertionSort (· ≤ ·)
    ([0] ++ (if del ≥ 20 then [4] else []) ++ (if sig_hb_b < sig_hb_n then [5] else [])
      ++ (if sig_hb_n < 40 then [9] else []))
  if del ≥ 20 ∧ sig_hb_b > sig_hb_n ∧ sig_hb_n ≥ 40 then
    ⟨.broad gfit_broad rchi2_broad, flag_bits, if fit_cont then 7 else 6⟩
  else
    ⟨.noBroad gfit_no_broad rchi2_no_broad, flag_bits, if fit_cont then 4 else 3⟩

/-- Role exchange of `fit_hb_line.fit_free_two_components`
(fit_lines.py lines 779-800): if the fitted broad component is narrower than
the outflow component, the two Gaussians trade names; the rebuilt compound
model sums only the three Gaussians, so any continuum term is dropped. -/
def hbExchange (g : HbBroad2) : HbBroad2 :=
  if sigmaOf g.hb_b < sigmaOf g.hb_out then
    { cont := none, hb_n := g.hb_n, hb_out := g.hb_b, hb_b := g.hb_out }
  else g

/-- Selection tail of `fit_hb_line.fit_free_two_components`
(fit_lines.py lines 779-839), applied to the two optimizer results. -/
def fit_free_two_components (gfit_no_broad : HbNoBroad2) (rchi2_no_broad : ℚ)
    (gfit_broad0 : HbBroad2) (rchi2_broad : ℚ) (fit_cont : Bool) :
    FitReturn HbBroad2 HbNoBroad2 :=
  let swapped := sigmaOf gfit_broad0.hb_b < sigmaOf gfit_broad0.hb_out
  let gfit_broad := hbExchange gfit_broad0
  let del := del_rchi2 rchi2_no_broad rchi2_broad
  let sig_hb_n := sigmaOf gfit_broad.hb_n
  let sig_hb_b := sigmaOf gfit_broad.hb_b
  let flag_bits := List.insertionSort (· ≤ ·)
    ((if swapped then [6] else []) ++ [2] ++ (if del ≥ 20 then [4] else [])
      ++ (if sig_hb_b < sig_hb_n then [5] else []) ++ (if sig_hb_n < 40 then [9] else []))
  if del ≥ 20 ∧ sig_hb_b > sig_hb_n ∧ sig_hb_n ≥ 40 then
    ⟨.broad gfit_broad rchi2_broad, flag_bits, if fit_cont then 10 else 9⟩
  else
    ⟨.noBroad gfit_no_broad rchi2_no_broad, flag_bits, if fit_cont then 7 else 6⟩

/-- Selection tail of `fit_hb_line.fit_fixed_one_component`
(fit_lines.py lines 990-1024): the acceptance test checks only the chi-square
improvement and the broad-narrow ordering. -/
def fit_fixed_one_component (gfit_no_broad : HbNoBroad1) (rchi2_no_broad : ℚ)
    (gfit_broad : HbBroad1) (rchi2_broad : ℚ) (fit_cont : Bool) :
    FitReturn HbBroad1 HbNoBroad1 :=
  let del := del_rchi2 rchi2_no_broad rchi2_broad
  let sig_hb_n := sigmaOf gfit_broad.hb_n
  let sig_hb_b := sigmaOf gfit_broad.hb_b
  let flag_bits := List.insertionSort (· ≤ ·)
    ([1] ++ (if del ≥ 20 then [4] else []) ++ (if sig_hb_b < sig_hb_n then [5] else [])
      ++ (if sig_hb_n < 40 then [9] else []))
  if del ≥ 20 ∧ sig_hb_b > sig_hb_n then
    ⟨.broad gfit_broad rchi2_broad, flag_bits, if fit_cont then 6 else 5⟩
  else
    ⟨.noBroad gfit_no_broad rchi2_no_broad, flag_bits, if fit_cont then 3 else 2⟩

/-- Selection tail of `fit_hb_line.fit_fixed_two_components`
(fit_lines.py lines 1180-1214): no role exchange is performed, and the
acceptance test checks only the chi-square improvement and the broad-narrow
ordering. -/
def fit_fixed_two_components (gfit_no_broad : HbNoBroad2) (rchi2_no_broad : ℚ)
    (gfit_broad : HbBroad2) (rchi2_broad : ℚ) (fit_cont : Bool) :
    FitReturn HbBroad2 HbNoBroad2 :=
  let del := del_rchi2 rchi2_no_broad rchi2_broad
  let sig_hb_n := sigmaOf gfit_broad.hb_n
  let sig_hb_b := sigmaOf gfit_broad.hb_b
  let flag_bits := List.insertionSort (· ≤ ·)
    ([3] ++ (if del ≥ 20 then [4] else []) ++ (if sig_hb_b < sig_hb_n then [5] else [])
      ++ (if sig_hb_n < 40 then [9] else []))
  if del ≥ 20 ∧ sig_hb_b > sig_hb_n then
    ⟨.broad gfit_broad rchi2_broad, flag_bits, if fit_cont then 8 else 7⟩
  else
    ⟨.noBroad gfit_no_broad rchi2_no_broad, flag_bits, if fit_cont then 5 else 4⟩

end fit_hb_line

namespace fit_nii_ha_lines

/-- No-broad compound model of the one-component [NII]+Hα variants. -/
structure HaNoBroad1 where
  cont : Option ℚ
  nii6548 : Gauss ℚ
  nii6583 : Gauss ℚ
  ha_n : Gauss ℚ
deriving DecidableEq

/-- With-broad compound model of the one-component [NII]+Hα variants. -/
structure HaBroad1 where
  cont : Option ℚ
  nii6548 : Gauss ℚ
  nii6583 : Gauss ℚ
  ha_n : Gauss ℚ
  ha_b : Gauss ℚ
deriving DecidableEq

/-- No-broad compound model of the two-component [NII]+Hα variants. -/
structure HaNoBroad2 where
  cont : Option ℚ
  nii6548 : Gauss ℚ
  nii6583 : Gauss ℚ
  nii6548_out : Gauss ℚ
  nii6583_out : Gauss ℚ
  ha_n : Gauss ℚ
  ha_out : Gauss ℚ
deriving DecidableEq

/-- With-broad compound model of the two-component [NII]+Hα variants.  The
continuum and [NII] entries are `Option`s because the role-exchange rebuild
(`gfit_broad = g_ha_n + g_ha_out + g_ha_b`) keeps only the three Hα
Gaussians. -/
structure HaBroad2 where
  cont : Option ℚ
  nii6548 : Option (Gauss ℚ)
  nii6583 : Option (Gauss ℚ)
  nii6548_out : Option (Gauss ℚ)
  nii6583_out : Option (Gauss ℚ)
  ha_n : Gauss ℚ
  ha_out : Gauss ℚ
  ha_b : Gauss ℚ
deriving DecidableEq

/-- Selection tail of `fit_nii_ha_lines.fit_free_ha_one_component`
(fit_lines.py lines 1422-1457). -/
def fit_free_ha_one_component (gfit_no_broad : HaNoBroad1) (rchi2_no_broad : ℚ)
    (gfit_broad : HaBroad1) (rchi2_broad : ℚ) (fit_cont : Bool) :
    FitReturn HaBroad1 HaNoBroad1 :=
  let del := del_rchi2 rchi2_no_broad rchi2_broad
  let sig_ha_b := sigmaOf gfit_broad.ha_b
  let sig_ha_n := sigmaOf gfit_broad.ha_n
  let fwhm_ha_b := 2.355 * sig_ha_b
  let flag_bits := List.insertionSort (· ≤ ·)
    ([0] ++ (if del ≥ 20 then [4] else []) ++ (if sig_ha_b < sig_ha_n then [5] else [])
      ++ (if sig_ha_n < 40 then [10] else []))
  if del ≥ 20 ∧ sig_ha_b > sig_ha_n ∧ sig_ha_n ≥ 40 ∧ fwhm_ha_b ≥ 300 then
    ⟨.broad gfit_broad rchi2_broad, flag_bits, if fit_cont then 9 else 8⟩
  else
    ⟨.noBroad gfit_no_broad rchi2_no_broad, flag_bits, if fit_cont then 6 else 5⟩

/-- Role exchange of `fit_nii_ha_lines.fit_free_ha_two_components`
(fit_lines.py lines 1714-1735): the rebuilt compound model is
`g_ha_n + g_ha_out + g_ha_b`, dropping the continuum and [NII] terms. -/
def haExchange (g : HaBroad2) : HaBroad2 :=
  if sigmaOf g.ha_b < sigmaOf g.ha_out then
    { cont := none, nii6548 := none, nii6583 := none, nii6548_out := none,
      nii6583_out := none, ha_n := g.ha_n, ha_out := g.ha_b, ha_b := g.ha_out }
  else g

/-- Selection tail of `fit_nii_ha_lines.fit_free_ha_two_components`
(fit_lines.py lines 1714-1775). -/
def fit_free_ha_two_components (gfit_no_broad : HaNoBroad2) (rchi2_no_broad : ℚ)
    (gfit_broad0 : HaBroad2) (rchi2_broad : ℚ) (fit_cont : Bool) :
    FitReturn HaBroad2 HaNoBroad2 :=
  let swapped := sigmaOf gfit_broad0.ha_b < sigmaOf gfit_broad0.ha_out
  let gfit_broad := haExchange gfit_broad0
  let del := del_rchi2 rchi2_no_broad rchi2_broad
  let sig_ha_b := sigmaOf gfit_broad.ha_b
  let sig_ha_n := sigmaOf gfit_broad.ha_n
  let fwhm_ha_b := 2.355 * sig_ha_b
  let flag_bits := List.insertionSort (· ≤ ·)
    ((if swapped then [6] else []) ++ [2] ++ (if del ≥ 20 then [4] else [])
      ++ (if sig_ha_b < sig_ha_n then [5] else []) ++ (if sig_ha_n < 40 then [10] else []))
  if del ≥ 20 ∧ sig_ha_b > sig_ha_n ∧ sig_ha_n ≥ 40 ∧ fwhm_ha_b ≥ 300 then
    ⟨.broad gfit_broad rchi2_broad, flag_bits, if fit_cont then 14 else 13⟩
  else
    ⟨.noBroad gfit_no_broad rchi2_no_broad, flag_bits, if fit_cont then 11 else 10⟩

/-- Selection tail of `fit_nii_ha_lines.fit_fixed_one_component`
(fit_lines.py lines 1972-2008): the acceptance test checks the chi-square
improvement, the broad-narrow ordering and the broad FWHM floor, but not the
narrow-width floor. -/
def fit_fixed_one_component (gfit_no_broad : HaNoBroad1) (rchi2_no_broad : ℚ)
    (gfit_broad : HaBroad1) (rchi2_broad : ℚ) (fit_cont : Bool) :
    FitReturn HaBroad1 HaNoBroad1 :=
  let del := del_rchi2 rchi2_no_broad rchi2_broad
  let sig_ha_b := sigmaOf gfit_broad.ha_b
  let sig_ha_n := sigmaOf gfit_broad.ha_n
  let fwhm_ha_b := 2.355 * sig_ha_b
  let flag_bits := List.insertionSort (· ≤ ·)
    ([1] ++ (if del ≥ 20 then [4] else []) ++ (if sig_ha_b < sig_ha_n then [5] else [])
      ++ (if sig_ha_n < 40 then [10] else []))
  if del ≥ 20 ∧ sig_ha_b > sig_ha_n ∧ fwhm_ha_b ≥ 300 then
    ⟨.broad gfit_broad rchi2_broad, flag_bits, if fit_cont then 8 else 7⟩
  else
    ⟨.noBroad gfit_no_broad rchi2_no_broad, flag_bits, if fit_cont then 5 else 4⟩

/-- Selection tail of `fit_nii_ha_lines.fit_fixed_two_components`
(fit_lines.py lines 2259-2295): no role exchange is performed, and the
acceptance test checks the chi-square improvement, the broad-narrow ordering
and the broad FWHM floor, but not the narrow-width floor. -/
def fit_fixed_two_components (gfit_no_broad : HaNoBroad2) (rchi2_no_broad : ℚ)
    (gfit_broad : HaBroad2) (rchi2_broad : ℚ) (fit_cont : Bool) :
    FitReturn HaBroad2 HaNoBroad2 :=
  let del := del_rchi2 rchi2_no_broad rchi2_broad
  let sig_ha_b := sigmaOf gfit_broad.ha_b
  let sig_ha_n := sigmaOf gfit_broad.ha_n
  let fwhm_ha_b := 2.355 * sig_ha_b
  let flag_bits := List.insertionSort (· ≤ ·)
    ([3] ++ (if del ≥ 20 then [4] else []) ++ (if sig_ha_b < sig_ha_n then [5] else [])
      ++ (if sig_ha_n < 40 then [10] else []))
  if del ≥ 20 ∧ sig_ha_b > sig_ha_n ∧ fwhm_ha_b ≥ 300 then
    ⟨.broad gfit_broad rchi2_broad, flag_bits, if fit_cont then 12 else 11⟩
  else
    ⟨.noBroad gfit_no_broad rchi2_no_broad, flag_bits, if fit_cont then 9 else 8⟩

end fit_nii_ha_lines

namespace fit_sii_lines

/-- One-component [SII] model of `fit_sii_lines.fit_one_component`
(fit_lines.py lines 59-76).  Free parameters: the `sii6716` Gaussian, the
`sii6731` amplitude and the optional continuum amplitude.  Ties re-evaluated
by the optimizer: `mean(sii6731) = mean(sii6716) + 14.329` and
`stddev(sii6731) = stddev(sii6716) * mean(sii6731)/mean(sii6716)`. -/
structure SiiModel1 where
  cont : Option ℚ
  sii6716 : Gauss ℚ
  sii6731 : Gauss ℚ
deriving DecidableEq

/-- Builds the tie-consistent one-component [SII] model from the free
parameters (fit_lines.py lines 59-76). -/
def one_component_model (cont : Option ℚ) (g6716 : Gauss ℚ) (amp6731 : ℚ) : SiiModel1 :=
  { cont := cont
    sii6716 := g6716
    sii6731 :=
      { amplitude := amp6731
        mean := g6716.mean + 14.329
        stddev := g6716.stddev * ((g6716.mean + 14.329) / g6716.mean) } }

/-- Two-component [SII] model of `fit_sii_lines.fit_two_components`
(fit_lines.py lines 137-182). -/
structure SiiModel2 where
  cont : Option ℚ
  sii6716 : Gauss ℚ
  sii6731 : Gauss ℚ
  sii6716_out : Gauss ℚ
  sii6731_out : Gauss ℚ
deriving DecidableEq

/-- Builds the tie-consistent two-component [SII] model from the free
parameters (fit_lines.py lines 137-182).  Ties: both mean offsets are
`+ 14.379`, both `sii6731` widths are velocity-scaled from `sii6716`, and
`amplitude(sii6731_out) = (amplitude(sii6731)/amplitude(sii6716)) *
amplitude(sii6716_out)`. -/
def two_components_model (cont : Option ℚ) (g6716 : Gauss ℚ) (amp6731 : ℚ)
    (g6716_out : Gauss ℚ) : SiiModel2 :=
  { cont := cont
    sii6716 := g6716
    sii6731 :=
      { amplitude := amp6731
        mean := g6716.mean + 14.379
        stddev := g6716.stddev * ((g6716.mean + 14.379) / g6716.mean) }
    sii6716_out := g6716_out
    sii6731_out :=
      { amplitude := amp6731 / g6716.amplitude * g6716_out.amplitude
        mean := g6716_out.mean + 14.379
        stddev := g6716_out.stddev * ((g6716_out.mean + 14.379) / g6716_out.mean) } }

end fit_sii_lines

namespace fit_oiii_lines

/-- One-component [OIII] model of `fit_oiii_lines.fit_one_component`
(fit_lines.py lines 249-273). -/
structure OiiiModel1 where
  cont : Option ℚ
  oiii4959 : Gauss ℚ
  oiii5007 : Gauss ℚ
deriving DecidableEq

/-- Builds the tie-consistent one-component [OIII] model from the free
parameters (fit_lines.py lines 249-273).  Ties:
`mean(oiii5007) = mean(oiii4959) + 47.934`,
`amplitude(oiii5007) = amplitude(oiii4959) * 2.98`,
`stddev(oiii5007) = stddev(oiii4959) * mean(oiii5007)/mean(oiii4959)`. -/
def one_component_model (cont : Option ℚ) (g4959 : Gauss ℚ) : OiiiModel1 :=
  { cont := cont
    oiii4959 := g4959
    oiii5007 :=
      { amplitude := g4959.amplitude * 2.98
        mean := g4959.mean + 47.934
        stddev := g4959.stddev * ((g4959.mean + 47.934) / g4959.mean) } }

/-- Two-component [OIII] model of `fit_oiii_lines.fit_two_components`
(fit_lines.py lines 337-387). -/
structure OiiiModel2 where
  cont : Option ℚ
  oiii4959 : Gauss ℚ
  oiii5007 : Gauss ℚ
  oiii4959_out : Gauss ℚ
  oiii5007_out : Gauss ℚ
deriving DecidableEq

/-- Builds the tie-consistent two-component [OIII] model from the free
parameters (fit_lines.py lines 337-387): the main pair and the outflow pair
each carry the mean-offset, amplitude-ratio and velocity-scaled-width ties. -/
def two_components_model (cont : Option ℚ) (g4959 g4959_out : Gauss ℚ) : OiiiModel2 :=
  { cont := cont
    oiii4959 := g4959
    oiii5007 :=
      { amplitude := g4959.amplitude * 2.98
        mean := g4959.mean + 47.934
        stddev := g4959.stddev * ((g4959.mean + 47.934) / g4959.mean) }
    oiii4959_out := g4959_out
    oiii5007_out :=
      { amplitude := g4959_out.amplitude * 2.98
        mean := g4959_out.mean + 47.934
        stddev := g4959_out.stddev * ((g4959_out.mean + 47.934) / g4959_out.mean) } }

/-- The `n_free_params` value that `fit_oiii_lines.fit_one_component` passes to
`mfit.calculate_red_chi2` (fit_lines.py lines 287-300). -/
def one_component_rchi2 (flam model_eval ivar : List ℚ) (fit_cont : Bool) : ℚ :=
  if fit_cont then mfit.calculate_red_chi2 flam model_eval ivar 4
  else mfit.calculate_red_chi2 flam model_eval ivar 3

/-- The `n_free_params` value that `fit_oiii_lines.fit_two_components` passes to
`mfit.calculate_red_chi2` (fit_lines.py lines 399-413). -/
def two_components_rchi2 (flam model_eval ivar : List ℚ) (fit_cont : Bool) : ℚ :=
  if fit_cont then mfit.calculate_red_chi2 flam model_eval ivar 7
  else mfit.calculate_red_chi2 flam model_eval ivar 6

end fit_oiii_lines

namespace fit_sii_lines

/-- The `n_free_params` value that `fit_sii_lines.fit_one_component` passes to
`mfit.calculate_red_chi2` (fit_lines.py lines 89-100). -/
def one_component_rchi2 (flam model_eval ivar : List ℚ) (fit_cont : Bool) : ℚ :=
  if fit_cont then mfit.calculate_red_chi2 flam model_eval ivar 5
  else mfit.calculate_red_chi2 flam model_eval ivar 4

/-- The `n_free_params` value that `fit_sii_lines.fit_two_components` passes to
`mfit.calculate_red_chi2` (fit_lines.py lines 194-204). -/
def two_components_rchi2 (flam model_eval ivar : List ℚ) (fit_cont : Bool) : ℚ :=
  if fit_cont then mfit.calculate_red_chi2 flam model_eval ivar 8
  else mfit.calculate_red_chi2 flam model_eval ivar 7

end fit_sii_lines

namespace emline_fitting

/-- The `sii_dof` branch of `emline_fitting.fit_spectra_iteration`
(emline_fitting.py lines 242-266): `n_sii` of 2 or 3 selects the one-component
fit, 4 or 5 the two-component fit, `None` delegates to
`find_bestfit.find_sii_best_fit` (whose dof is taken as a parameter since that
module is not in the sources); any other value falls through every branch
(`none` = unbound variable in the source). -/
def fit_spectra_sii_dof (n_sii : Option ℕ) (fit_cont : Bool) (bestfit_dof : ℕ) : Option ℕ :=
  match n_sii with
  | some n =>
    if n = 2 ∨ n = 3 then some (if fit_cont then 5 else 4)
    else if n = 4 ∨ n = 5 then some (if fit_cont then 8 else 7)
    else none
  | none => some bestfit_dof

/-- The `oiii_dof` branch of `emline_fitting.fit_spectra_iteration`
(emline_fitting.py lines 268-292). -/
def fit_spectra_oiii_dof (n_oiii : Option ℕ) (fit_cont : Bool) (bestfit_dof : ℕ) : Option ℕ :=
  match n_oiii with
  | some n =>
    if n = 2 ∨ n = 3 then some (if fit_cont then 4 else 3)
    else if n = 4 ∨ n = 5 then some (if fit_cont then 7 else 6)
    else none
  | none => some bestfit_dof

/-- One row of the per-iteration parameter table, keeping the two columns the
Monte-Carlo summary of `fit_emline_spectra` reads. -/
structure IterRow where
  hb_b_flux : ℚ
  ha_b_flux : ℚ

/-- The Monte-Carlo iteration loop of `emline_fitting.fit_emline_spectra`
(emline_fitting.py lines 94-108): after the original fit, `for kk in
range(100)` resamples the flux and refits; `iterFit kk` stands for the row that
iteration `kk`'s `fit_spectra_iteration` produces.  `vstack` of the collected
one-row tables is the concatenated list. -/
def fit_emline_spectra_tables (iterFit : ℕ → IterRow) : List IterRow :=
  (List.range 100).map iterFit

/-- `per_hb = len(t_fits[t_fits['hb_b_flux'] > 0])*100/len(t_fits)`
(emline_fitting.py line 112). -/
def percent_hb_b (t_fits : List IterRow) : ℚ :=
  ((t_fits.filter (fun r => decide (r.hb_b_flux > 0))).length * 100 : ℚ) / t_fits.length

/-- `per_ha = len(t_fits[t_fits['ha_b_flux'] > 0])*100/len(t_fits)`
(emline_fitting.py line 115). -/
def percent_ha_b (t_fits : List IterRow) : ℚ :=
  ((t_fits.filter (fun r => decide (r.ha_b_flux > 0))).length * 100 : ℚ) / t_fits.length

end emline_fitting

namespace mfit

/-- Modelled from the spec: `measure_fits.compute_emline_flux` without errors:
`flux = amplitude * stddev * sqrt(2π)` (the module is not in the sources). -/
noncomputable def compute_emline_flux (amplitude stddev : ℝ) : ℝ :=
  amplitude * stddev * Real.sqrt (2 * Real.pi)

/-- Modelled from the spec: the error returned by
`measure_fits.compute_emline_flux` when amplitude and stddev errors are
supplied — relative errors added in quadrature. -/
noncomputable def compute_emline_flux_err (amplitude stddev amp_err std_err : ℝ) : ℝ :=
  compute_emline_flux amplitude stddev *
    Real.sqrt ((amp_err / amplitude) ^ 2 + (std_err / stddev) ^ 2)

/-- Modelled from the spec: the error returned by
`measure_fits.lamspace_to_velspace` when stddev and mean errors are supplied —
relative errors added in quadrature. -/
noncomputable def lamspace_to_velspace_err (stddev mean std_err mean_err : ℝ) : ℝ :=
  lamspace_to_velspace stddev mean *
    Real.sqrt ((std_err / stddev) ^ 2 + (mean_err / mean) ^ 2)

end mfit

namespace emline_params

/-- One component's per-iteration record: the `{model}_amplitude`, `_mean`,
`_std`, `_sigma`, `_flux` columns of one row of the stacked iteration table. -/
structure CompRow where
  amplitude : ℝ
  mean : ℝ
  std : ℝ
  sigma : ℝ
  flux : ℝ

/-- `np.isclose(x, 0.0)` with the numpy defaults
(`atol = 1e-8`, and `rtol` contributes nothing against 0): `|x| ≤ 1e-8`. -/
def isCloseZero (x : ℝ) : Prop := |x| ≤ 1e-8

/-- `np.nanmean`, with `NaN` entries modelled as `none`; an all-`NaN` input
yields `NaN` (`none`). -/
noncomputable def nanmean (xs : List (Option ℝ)) : Option ℝ :=
  let v := xs.filterMap id
  if v = [] then none else some (v.sum / v.length)

/-- `np.nanstd` (population standard deviation of the non-`NaN` entries). -/
noncomputable def nanstd (xs : List (Option ℝ)) : Option ℝ :=
  let v := xs.filterMap id
  if v = [] then none
  else some (Real.sqrt ((v.map (fun x => (x - v.sum / v.length) ^ 2)).sum / v.length))

/-- Mean of a plain list of numbers (`none` when empty). -/
noncomputable def listMean (v : List ℝ) : Option ℝ :=
  if v = [] then none else some (v.sum / v.length)

/-- Population standard deviation of a plain list of numbers
(`none` when empty). -/
noncomputable def listStd (v : List ℝ) : Option ℝ :=
  if v = [] then none
  else some (Real.sqrt ((v.map (fun x => (x - v.sum / v.length) ^ 2)).sum / v.length))

/-- The aggregated output of `get_bestfit_parameters` for one component;
`none` models a `NaN` entry. -/
structure AggOut where
  amplitude : Option ℝ
  amplitude_err : Option ℝ
  mean : Option ℝ
  mean_err : Option ℝ
  std : Option ℝ
  std_err : Option ℝ
  sigma : Option ℝ
  sigma_err : Option ℝ
  flux : Option ℝ
  flux_err : Option ℝ
  flux_fits : Option ℝ
  flux_err_fits : Option ℝ
  sigma_fits : Option ℝ
  sigma_err_fits : Option ℝ

/-- The all-zero record emitted by the `allzero` branch
(emline_params.py lines 131-145). -/
def zeroAgg : AggOut :=
  ⟨some 0, some 0, some 0, some 0, some 0, some 0, some 0,
   some 0, some 0, some 0, some 0, some 0, some 0, some 0⟩

/-- `allzero = amp_zero | mean_zero | std_zero` (emline_params.py lines
125-129): all amplitudes close to zero, or all means, or all stddevs. -/
def allzero (rs : List CompRow) : Prop :=
  (∀ r ∈ rs, isCloseZero r.amplitude) ∨ (∀ r ∈ rs, isCloseZero r.mean) ∨
    (∀ r ∈ rs, isCloseZero r.std)

open Classical in
/-- `cond = (amplitude_arr > 0)&(mean_arr > 0)&(std_arr > 0)`
(emline_params.py line 147), per iteration. -/
noncomputable def condB (r : CompRow) : Bool :=
  decide (0 < r.amplitude ∧ 0 < r.mean ∧ 0 < r.std)

/-- The iterations whose statistics are kept: those passing `cond`. -/
noncomputable def selected (rs : List CompRow) : List CompRow := rs.filter condB

open Classical in
/-- The per-component aggregation of `emline_params.get_bestfit_parameters`
(emline_params.py lines 118-176), applied to one component's stacked
per-iteration records. -/
noncomputable def get_bestfit_component (rs : List CompRow) : AggOut :=
  if allzero rs then zeroAgg
  else
    let mask : (CompRow → ℝ) → List (Option ℝ) := fun f =>
      rs.map (fun r => if condB r then some (f r) else none)
    let amp := nanmean (mask (fun r => r.amplitude))
    let amp_err := nanstd (mask (fun r => r.amplitude))
    let mean := nanmean (mask (fun r => r.mean))
    let mean_err := nanstd (mask (fun r => r.mean))
    let var := mask (fun r => r.std ^ 2)
    let std := (nanmean var).map Real.sqrt
    let std_err := (nanstd var).map Real.sqrt
    { amplitude := amp
      amplitude_err := amp_err
      mean := mean
      mean_err := mean_err
      std := std
      std_err := std_err
      sigma :=
        match std, mean with
        | some s, some m => some (mfit.lamspace_to_velspace s m)
        | _, _ => none
      sigma_err :=
        match std, mean, std_err, mean_err with
        | some s, some m, some se, some me => some (mfit.lamspace_to_velspace_err s m se me)
        | _, _, _, _ => none
      flux :=
        match amp, std with
        | some a, some s => some (mfit.compute_emline_flux a s)
        | _, _ => none
      flux_err :=
        match amp, std, amp_err, std_err with
        | some a, some s, some ae, some se => some (mfit.compute_emline_flux_err a s ae se)
        | _, _, _, _ => none
      flux_fits := nanmean (mask (fun r => r.flux))
      flux_err_fits := nanstd (mask (fun r => r.flux))
      sigma_fits := nanmean (mask (fun r => r.sigma))
      sigma_err_fits := nanstd (mask (fun r => r.sigma)) }

/-- The five parameter-table keys of one component, in emission order
(emline_params.py lines 82-92). -/
def component_keys (m : String) : List String :=
  [m ++ "_amplitude", m ++ "_mean", m ++ "_std", m ++ "_sigma", m ++ "_flux"]

/-- `emline_params.get_parameters` (emline_params.py lines 65-94): for each
expected component name, emit the five quantities when the winning model
contains a component of that name, and explicit zeros otherwise.  A fitted
compound model is its list of named Gaussians. -/
noncomputable def get_parameters (gfit : List (String × Gauss ℝ)) (models : List String) :
    List (String × ℝ) :=
  models.flatMap fun m =>
    match gfit.find? (fun p => p.1 == m) with
    | some p =>
        [(m ++ "_amplitude", p.2.amplitude), (m ++ "_mean", p.2.mean),
         (m ++ "_std", p.2.stddev),
         (m ++ "_sigma", mfit.lamspace_to_velspace p.2.stddev p.2.mean),
         (m ++ "_flux", mfit.compute_emline_flux p.2.amplitude p.2.stddev)]
    | none =>
        [(m ++ "_amplitude", 0), (m ++ "_mean", 0), (m ++ "_std", 0),
         (m ++ "_sigma", 0), (m ++ "_flux", 0)]

end emline_params

namespace emline_fitting

/-- `hb_models` (emline_fitting.py line 309). -/
def hb_models : List String := ["hb_n", "hb_out", "hb_b"]

/-- `oiii_models` (emline_fitting.py line 310). -/
def oiii_models : List String := ["oiii4959", "oiii4959_out", "oiii5007", "oiii5007_out"]

/-- `nii_ha_models` (emline_fitting.py line 311). -/
def nii_ha_models : List String :=
  ["nii6548", "nii6548_out", "nii6583", "nii6583_out", "ha_n", "ha_out", "ha_b"]

/-- `sii_models` (emline_fitting.py line 312). -/
def sii_models : List String := ["sii6716", "sii6716_out", "sii6731", "sii6731_out"]

/-- A winning compound model as the parameter extraction sees it: the list of
named fitted Gaussians, and the amplitude of its `{complex}_cont` constant
term — `none` when the model carries no continuum submodel, as the
role-exchange rebuilds of the free two-component variants do
(fit_lines.py lines 800 and 1735). -/
structure ComplexFit where
  gaussians : List (String × Gauss ℝ)
  cont : Option ℝ

/-- Parameter-table assembly of `emline_fitting.fit_spectra_iteration`
(emline_fitting.py lines 306-345), from the four winning models and their
degrees of freedom.  When `fit_cont` is false the source prepends a
zero-amplitude `Const1D` continuum to each model before reading the
continuum column, so every continuum entry is `0`.  When `fit_cont` is true
the source indexes `gfit['{complex}_cont']` unconditionally (lines 330-333),
which raises when a winning model has no continuum submodel: that error path
is `none`. -/
noncomputable def fit_spectra_iteration_params
    (gfit_hb gfit_oiii gfit_nii_ha gfit_sii : ComplexFit)
    (hb_dof oiii_dof nii_ha_dof sii_dof : ℕ) (fit_cont : Bool) :
    Option (List (String × ℝ)) :=
  let contOf : ComplexFit → Option ℝ := fun m => if fit_cont then m.cont else some 0
  match contOf gfit_hb, contOf gfit_oiii, contOf gfit_nii_ha, contOf gfit_sii with
  | some hb_c, some oiii_c, some nii_ha_c, some sii_c =>
    some (emline_params.get_parameters gfit_hb.gaussians hb_models
      ++ [("hb_continuum", hb_c), ("hb_dof", (hb_dof : ℝ))]
      ++ emline_params.get_parameters gfit_oiii.gaussians oiii_models
      ++ [("oiii_continuum", oiii_c), ("oiii_dof", (oiii_dof : ℝ))]
      ++ emline_params.get_parameters gfit_nii_ha.gaussians nii_ha_models
      ++ [("nii_ha_continuum", nii_ha_c), ("nii_ha_dof", (nii_ha_dof : ℝ))]
      ++ emline_params.get_parameters gfit_sii.gaussians sii_models
      ++ [("sii_continuum", sii_c), ("sii_dof", (sii_dof : ℝ))])
  | _, _, _, _ => none

/-- The fixed column set of the per-iteration parameter table. -/
def fixed_columns : List String :=
  hb_models.flatMap emline_params.component_keys ++ ["hb_continuum", "hb_dof"]
    ++ oiii_models.flatMap emline_params.component_keys ++ ["oiii_continuum", "oiii_dof"]
    ++ nii_ha_models.flatMap emline_params.component_keys
    ++ ["nii_ha_continuum", "nii_ha_dof"]
    ++ sii_models.flatMap emline_params.component_keys ++ ["sii_continuum", "sii_dof"]

end emline_fitting

/-! ## Helper lemmas -/

theorem mem_ite_singleton {x k : ℕ} (c : Prop) [Decidable c] :
    (x ∈ if c then [k] else ([] : List ℕ)) ↔ c ∧ x = k := by
  split <;> simp_all

theorem hbExchange_sigma (g : fit_hb_line.HbBroad2) :
    sigmaOf (fit_hb_line.hbExchange g).hb_out ≤ sigmaOf (fit_hb_line.hbExchange g).hb_b := by
  unfold fit_hb_line.hbExchange
  split
  · next h => exact le_of_lt h
  · next h => exact le_of_not_lt h

theorem haExchange_sigma (g : fit_nii_ha_lines.HaBroad2) :
    sigmaOf (fit_nii_ha_lines.haExchange g).ha_out ≤
      sigmaOf (fit_nii_ha_lines.haExchange g).ha_b := by
  unfold fit_nii_ha_lines.haExchange
  split
  · next h => exact le_of_lt h
  · next h => exact le_of_not_lt h

/-! ## Claims -/

/-- **C1** (amended).  Broad-component acceptance per entry point: the
with-broad model is returned iff the reduced chi-square improves by at least
20% and the broad velocity dispersion exceeds the narrow one; the free-width
variants additionally require narrow σ ≥ 40 km/s, the Hα variants additionally
require broad FWHM = 2.355σ ≥ 300 km/s, and for the two-component variants the
dispersions are those of the role-exchanged broad model.  The fixed-width
variants do **not** check the 40 km/s narrow floor. -/
theorem C1_broad_acceptance :
    (∀ (nb : fit_hb_line.HbNoBroad1) (r0 : ℚ) (gb : fit_hb_line.HbBroad1) (r1 : ℚ) (c : Bool),
      (fit_hb_line.fit_free_one_component nb r0 gb r1 c).choice.isBroad = true ↔
        del_rchi2 r0 r1 ≥ 20 ∧ sigmaOf gb.hb_b > sigmaOf gb.hb_n ∧ sigmaOf gb.hb_n ≥ 40) ∧
    (∀ (nb : fit_hb_line.HbNoBroad2) (r0 : ℚ) (gb : fit_hb_line.HbBroad2) (r1 : ℚ) (c : Bool),
      (fit_hb_line.fit_free_two_components nb r0 gb r1 c).choice.isBroad = true ↔
        del_rchi2 r0 r1 ≥ 20 ∧
          sigmaOf (fit_hb_line.hbExchange gb).hb_b > sigmaOf (fit_hb_line.hbExchange gb).hb_n ∧
          sigmaOf (fit_hb_line.hbExchange gb).hb_n ≥ 40) ∧
    (∀ (nb : fit_hb_line.HbNoBroad1) (r0 : ℚ) (gb : fit_hb_line.HbBroad1) (r1 : ℚ) (c : Bool),
      (fit_hb_line.fit_fixed_one_component nb r0 gb r1 c).choice.isBroad = true ↔
        del_rchi2 r0 r1 ≥ 20 ∧ sigmaOf gb.hb_b > sigmaOf gb.hb_n) ∧
    (∀ (nb : fit_hb_line.HbNoBroad2) (r0 : ℚ) (gb : fit_hb_line.HbBroad2) (r1 : ℚ) (c : Bool),
      (fit_hb_line.fit_fixed_two_components nb r0 gb r1 c).choice.isBroad = true ↔
        del_rchi2 r0 r1 ≥ 20 ∧ sigmaOf gb.hb_b > sigmaOf gb.hb_n) ∧
    (∀ (nb : fit_nii_ha_lines.HaNoBroad1) (r0 : ℚ) (gb : fit_nii_ha_lines.HaBroad1) (r1 : ℚ)
        (c : Bool),
      (fit_nii_ha_lines.fit_free_ha_one_component nb r0 gb r1 c).choice.isBroad = true ↔
        del_rchi2 r0 r1 ≥ 20 ∧ sigmaOf gb.ha_b > sigmaOf gb.ha_n ∧ sigmaOf gb.ha_n ≥ 40 ∧
          2.355 * sigmaOf gb.ha_b ≥ 300) ∧
    (∀ (nb : fit_nii_ha_lines.HaNoBroad2) (r0 : ℚ) (gb : fit_nii_ha_lines.HaBroad2) (r1 : ℚ)
        (c : Bool),
      (fit_nii_ha_lines.fit_free_ha_two_components nb r0 gb r1 c).choice.isBroad = true ↔
        del_rchi2 r0 r1 ≥ 20 ∧
          sigmaOf (fit_nii_ha_lines.haExchange gb).ha_b >
            sigmaOf (fit_nii_ha_lines.haExchange gb).ha_n ∧
          sigmaOf (fit_nii_ha_lines.haExchange gb).ha_n ≥ 40 ∧
          2.355 * sigmaOf (fit_nii_ha_lines.haExchange gb).ha_b ≥ 300) ∧
    (∀ (nb : fit_nii_ha_lines.HaNoBroad1) (r0 : ℚ) (gb : fit_nii_ha_lines.HaBroad1) (r1 : ℚ)
        (c : Bool),
      (fit_nii_ha_lines.fit_fixed_one_component nb r0 gb r1 c).choice.isBroad = true ↔
        del_rchi2 r0 r1 ≥ 20 ∧ sigmaOf gb.ha_b > sigmaOf gb.ha_n ∧
          2.355 * sigmaOf gb.ha_b ≥ 300) ∧
    (∀ (nb : fit_nii_ha_lines.HaNoBroad2) (r0 : ℚ) (gb : fit_nii_ha_lines.HaBroad2) (r1 : ℚ)
        (c : Bool),
      (fit_nii_ha_lines.fit_fixed_two_components nb r0 gb r1 c).choice.isBroad = true ↔
        del_rchi2 r0 r1 ≥ 20 ∧ sigmaOf gb.ha_b > sigmaOf gb.ha_n ∧
          2.355 * sigmaOf gb.ha_b ≥ 300) := by
  refine ⟨?_, ?_, ?_, ?_, ?_, ?_, ?_, ?_⟩ <;> intro nb r0 gb r1 c
  · by_cases h : del_rchi2 r0 r1 ≥ 20 ∧ sigmaOf gb.hb_b > sigmaOf gb.hb_n ∧
        sigmaOf gb.hb_n ≥ 40 <;>
      simp [fit_hb_line.fit_free_one_component, h, Chosen.isBroad]
  · by_cases h : del_rchi2 r0 r1 ≥ 20 ∧
        sigmaOf (fit_hb_line.hbExchange gb).hb_b > sigmaOf (fit_hb_line.hbExchange gb).hb_n ∧
        sigmaOf (fit_hb_line.hbExchange gb).hb_n ≥ 40 <;>
      simp [fit_hb_line.fit_free_two_components, h, Chosen.isBroad]
  · by_cases h : del_rchi2 r0 r1 ≥ 20 ∧ sigmaOf gb.hb_b > sigmaOf gb.hb_n <;>
      simp [fit_hb_line.fit_fixed_one_component, h, Chosen.isBroad]
  · by_cases h : del_rchi2 r0 r1 ≥ 20 ∧ sigmaOf gb.hb_b > sigmaOf gb.hb_n <;>
      simp [fit_hb_line.fit_fixed_two_components, h, Chosen.isBroad]
  · by_cases h : del_rchi2 r0 r1 ≥ 20 ∧ sigmaOf gb.ha_b > sigmaOf gb.ha_n ∧
        sigmaOf gb.ha_n ≥ 40 ∧ 2.355 * sigmaOf gb.ha_b ≥ 300 <;>
      simp [fit_nii_ha_lines.fit_free_ha_one_component, h, Chosen.isBroad]
  · by_cases h : del_rchi2 r0 r1 ≥ 20 ∧
        sigmaOf (fit_nii_ha_lines.haExchange gb).ha_b >
          sigmaOf (fit_nii_ha_lines.haExchange gb).ha_n ∧
        sigmaOf (fit_nii_ha_lines.haExchange gb).ha_n ≥ 40 ∧
        2.355 * sigmaOf (fit_nii_ha_lines.haExchange gb).ha_b ≥ 300 <;>
      simp [fit_nii_ha_lines.fit_free_ha_two_components, h, Chosen.isBroad]
  · by_cases h : del_rchi2 r0 r1 ≥ 20 ∧ sigmaOf gb.ha_b > sigmaOf gb.ha_n ∧
        2.355 * sigmaOf gb.ha_b ≥ 300 <;>
      simp [fit_nii_ha_lines.fit_fixed_one_component, h, Chosen.isBroad]
  · by_cases h : del_rchi2 r0 r1 ≥ 20 ∧ sigmaOf gb.ha_b > sigmaOf gb.ha_n ∧
        2.355 * sigmaOf gb.ha_b ≥ 300 <;>
      simp [fit_nii_ha_lines.fit_fixed_two_components, h, Chosen.isBroad]

/-- **C1** counterexample: the fixed-width one-component Hβ entry point returns
the with-broad model on a fit whose narrow velocity dispersion is below
40 km/s (≈ 29.98 km/s here), contradicting the claim that every entry point
requires narrow σ ≥ 40 km/s. -/
theorem C1_counterexample :
    (fit_hb_line.fit_fixed_one_component ⟨some 0, ⟨1, 10000, 1⟩⟩ 10
        ⟨some 0, ⟨1, 10000, 1⟩, ⟨1, 10000, 10⟩⟩ 1 true).choice.isBroad = true ∧
      sigmaOf (⟨1, 10000, 1⟩ : Gauss ℚ) < 40 := by
  have hdel : del_rchi2 (10 : ℚ) 1 ≥ 20 := by norm_num [del_rchi2]
  have hlt : sigmaOf (⟨1, 10000, 1⟩ : Gauss ℚ) < sigmaOf (⟨1, 10000, 10⟩ : Gauss ℚ) := by
    norm_num [sigmaOf, mfit.lamspace_to_velspace, mfit.speed_of_light]
  refine ⟨?_, ?_⟩
  · simp only [fit_hb_line.fit_fixed_one_component]
    split
    · rfl
    · next hneg => exact absurd ⟨hdel, hlt⟩ hneg
  · norm_num [sigmaOf, mfit.lamspace_to_velspace, mfit.speed_of_light]

/-- **C2** (amended).  In the **free** two-component Hβ and Hα variants, the
returned with-broad model is the role-exchanged one, its broad component is at
least as wide as its outflow component, and flag bit 6 is recorded exactly when
the exchange fired.  (The fixed two-component variants perform no exchange; see
the counterexample.) -/
theorem C2_role_exchange :
    (∀ (nb : fit_hb_line.HbNoBroad2) (r0 : ℚ) (gb : fit_hb_line.HbBroad2) (r1 : ℚ) (c : Bool),
      (∀ g r, (fit_hb_line.fit_free_two_components nb r0 gb r1 c).choice = .broad g r →
          g = fit_hb_line.hbExchange gb ∧ sigmaOf g.hb_out ≤ sigmaOf g.hb_b) ∧
      (6 ∈ (fit_hb_line.fit_free_two_components nb r0 gb r1 c).flag_bits ↔
          sigmaOf gb.hb_b < sigmaOf gb.hb_out)) ∧
    (∀ (nb : fit_nii_ha_lines.HaNoBroad2) (r0 : ℚ) (gb : fit_nii_ha_lines.HaBroad2) (r1 : ℚ)
        (c : Bool),
      (∀ g r, (fit_nii_ha_lines.fit_free_ha_two_components nb r0 gb r1 c).choice = .broad g r →
          g = fit_nii_ha_lines.haExchange gb ∧ sigmaOf g.ha_out ≤ sigmaOf g.ha_b) ∧
      (6 ∈ (fit_nii_ha_lines.fit_free_ha_two_components nb r0 gb r1 c).flag_bits ↔
          sigmaOf gb.ha_b < sigmaOf gb.ha_out)) := by
  constructor
  · intro nb r0 gb r1 c
    constructor
    · intro g r hg
      simp only [fit_hb_line.fit_free_two_components] at hg
      split at hg
      · simp only [Chosen.broad.injEq] at hg
        obtain ⟨h1, -⟩ := hg
        exact ⟨h1.symm, h1 ▸ hbExchange_sigma gb⟩
      · simp at hg
    · simp only [fit_hb_line.fit_free_two_components]
      split <;>
      · dsimp only
        rw [(List.perm_insertionSort _ _).mem_iff]
        by_cases hsw : sigmaOf gb.hb_b < sigmaOf gb.hb_out <;>
          simp [hsw, mem_ite_singleton, List.mem_append]
  · intro nb r0 gb r1 c
    constructor
    · intro g r hg
      simp only [fit_nii_ha_lines.fit_free_ha_two_components] at hg
      split at hg
      · simp only [Chosen.broad.injEq] at hg
        obtain ⟨h1, -⟩ := hg
        exact ⟨h1.symm, h1 ▸ haExchange_sigma gb⟩
      · simp at hg
    · simp only [fit_nii_ha_lines.fit_free_ha_two_components]
      split <;>
      · dsimp only
        rw [(List.perm_insertionSort _ _).mem_iff]
        by_cases hsw : sigmaOf gb.ha_b < sigmaOf gb.ha_out <;>
          simp [hsw, mem_ite_singleton, List.mem_append]

/-- **C2** counterexample: the fixed-width two-component Hβ entry point accepts
and returns a with-broad model whose broad component is *narrower* than its
outflow component, without any role exchange and without recording flag
bit 6. -/
theorem C2_counterexample :
    (fit_hb_line.fit_fixed_two_components ⟨some 0, ⟨1, 1000, 1⟩, ⟨1, 1000, 3⟩⟩ 10
        ⟨some 0, ⟨1, 1000, 1⟩, ⟨1, 1000, 3⟩, ⟨1, 1000, 2⟩⟩ 1 true).choice =
      .broad ⟨some 0, ⟨1, 1000, 1⟩, ⟨1, 1000, 3⟩, ⟨1, 1000, 2⟩⟩ 1 ∧
    sigmaOf ((⟨some 0, ⟨1, 1000, 1⟩, ⟨1, 1000, 3⟩, ⟨1, 1000, 2⟩⟩ :
        fit_hb_line.HbBroad2)).hb_b <
      sigmaOf ((⟨some 0, ⟨1, 1000, 1⟩, ⟨1, 1000, 3⟩, ⟨1, 1000, 2⟩⟩ :
        fit_hb_line.HbBroad2)).hb_out ∧
    6 ∉ (fit_hb_line.fit_fixed_two_components ⟨some 0, ⟨1, 1000, 1⟩, ⟨1, 1000, 3⟩⟩ 10
        ⟨some 0, ⟨1, 1000, 1⟩, ⟨1, 1000, 3⟩, ⟨1, 1000, 2⟩⟩ 1 true).flag_bits := by
  have hdel : del_rchi2 (10 : ℚ) 1 ≥ 20 := by norm_num [del_rchi2]
  have hlt : sigmaOf (⟨1, 1000, 1⟩ : Gauss ℚ) < sigmaOf (⟨1, 1000, 2⟩ : Gauss ℚ) := by
    norm_num [sigmaOf, mfit.lamspace_to_velspace, mfit.speed_of_light]
  have h5 : ¬(sigmaOf (⟨1, 1000, 2⟩ : Gauss ℚ) < sigmaOf (⟨1, 1000, 1⟩ : Gauss ℚ)) := by
    norm_num [sigmaOf, mfit.lamspace_to_velspace, mfit.speed_of_light]
  have h9 : ¬(sigmaOf (⟨1, 1000, 1⟩ : Gauss ℚ) < 40) := by
    norm_num [sigmaOf, mfit.lamspace_to_velspace, mfit.speed_of_light]
  refine ⟨?_, ?_, ?_⟩
  · simp only [fit_hb_line.fit_fixed_two_components]
    split
    · rfl
    · next hneg => exact absurd ⟨hdel, hlt⟩ hneg
  · norm_num [sigmaOf, mfit.lamspace_to_velspace, mfit.speed_of_light]
  · simp only [fit_hb_line.fit_fixed_two_components]
    split <;>
    · dsimp only
      rw [(List.perm_insertionSort _ _).mem_iff]
      simp [hdel, h5, h9, mem_ite_singleton, List.mem_append]

/-- **C2** witness: a free two-component Hβ fit that accepts the broad model
without firing the exchange. -/
theorem C2_role_exchange_witness :
    (fit_hb_line.fit_free_two_components ⟨some 0, ⟨1, 1000, 1⟩, ⟨1, 1000, 2⟩⟩ 10
        ⟨some 0, ⟨1, 1000, 1⟩, ⟨1, 1000, 2⟩, ⟨1, 1000, 3⟩⟩ 1 true).choice =
      .broad ⟨some 0, ⟨1, 1000, 1⟩, ⟨1, 1000, 2⟩, ⟨1, 1000, 3⟩⟩ 1 ∧
    ((⟨some 0, ⟨1, 1000, 1⟩, ⟨1, 1000, 2⟩, ⟨1, 1000, 3⟩⟩ : fit_hb_line.HbBroad2) =
        fit_hb_line.hbExchange ⟨some 0, ⟨1, 1000, 1⟩, ⟨1, 1000, 2⟩, ⟨1, 1000, 3⟩⟩ ∧
      sigmaOf ((⟨some 0, ⟨1, 1000, 1⟩, ⟨1, 1000, 2⟩, ⟨1, 1000, 3⟩⟩ :
          fit_hb_line.HbBroad2)).hb_out ≤
        sigmaOf ((⟨some 0, ⟨1, 1000, 1⟩, ⟨1, 1000, 2⟩, ⟨1, 1000, 3⟩⟩ :
          fit_hb_line.HbBroad2)).hb_b) := by
  have hnsw : ¬(sigmaOf (⟨1, 1000, 3⟩ : Gauss ℚ) < sigmaOf (⟨1, 1000, 2⟩ : Gauss ℚ)) := by
    norm_num [sigmaOf, mfit.lamspace_to_velspace, mfit.speed_of_light]
  have hex : fit_hb_line.hbExchange ⟨some 0, ⟨1, 1000, 1⟩, ⟨1, 1000, 2⟩, ⟨1, 1000, 3⟩⟩ =
      ⟨some 0, ⟨1, 1000, 1⟩, ⟨1, 1000, 2⟩, ⟨1, 1000, 3⟩⟩ := by
    simp only [fit_hb_line.hbExchange]
    split
    · next hpos => exact absurd hpos hnsw
    · rfl
  have hdel : del_rchi2 (10 : ℚ) 1 ≥ 20 := by norm_num [del_rchi2]
  have hpos : del_rchi2 (10 : ℚ) 1 ≥ 20 ∧
      sigmaOf (fit_hb_line.hbExchange
          ⟨some 0, ⟨1, 1000, 1⟩, ⟨1, 1000, 2⟩, ⟨1, 1000, 3⟩⟩).hb_b >
        sigmaOf (fit_hb_line.hbExchange
          ⟨some 0, ⟨1, 1000, 1⟩, ⟨1, 1000, 2⟩, ⟨1, 1000, 3⟩⟩).hb_n ∧
      sigmaOf (fit_hb_line.hbExchange
          ⟨some 0, ⟨1, 1000, 1⟩, ⟨1, 1000, 2⟩, ⟨1, 1000, 3⟩⟩).hb_n ≥ 40 := by
    refine ⟨hdel, ?_, ?_⟩ <;> rw [hex] <;>
      norm_num [sigmaOf, mfit.lamspace_to_velspace, mfit.speed_of_light]
  have hchoice : (fit_hb_line.fit_free_two_components
      ⟨some 0, ⟨1, 1000, 1⟩, ⟨1, 1000, 2⟩⟩ 10
      ⟨some 0, ⟨1, 1000, 1⟩, ⟨1, 1000, 2⟩, ⟨1, 1000, 3⟩⟩ 1 true).choice =
      .broad ⟨some 0, ⟨1, 1000, 1⟩, ⟨1, 1000, 2⟩, ⟨1, 1000, 3⟩⟩ 1 := by
    simp only [fit_hb_line.fit_free_two_components]
    split
    · rw [hex]
    · next hneg => exact absurd hpos hneg
  refine ⟨hchoice, ?_⟩
  exact (C2_role_exchange.1 _ 10 _ 1 true).1 _ 1 hchoice

/-- **C3**.  Every [NII]+Hα entry point returns the no-broad fit whenever the
(for two-component variants: role-exchanged) broad Hα component has
FWHM = 2.355σ below 300 km/s, regardless of the chi-square improvement. -/
theorem C3_ha_fwhm_floor :
    (∀ (nb : fit_nii_ha_lines.HaNoBroad1) (r0 : ℚ) (gb : fit_nii_ha_lines.HaBroad1) (r1 : ℚ)
        (c : Bool), 2.355 * sigmaOf gb.ha_b < 300 →
      (fit_nii_ha_lines.fit_free_ha_one_component nb r0 gb r1 c).choice = .noBroad nb r0) ∧
    (∀ (nb : fit_nii_ha_lines.HaNoBroad2) (r0 : ℚ) (gb : fit_nii_ha_lines.HaBroad2) (r1 : ℚ)
        (c : Bool), 2.355 * sigmaOf (fit_nii_ha_lines.haExchange gb).ha_b < 300 →
      (fit_nii_ha_lines.fit_free_ha_two_components nb r0 gb r1 c).choice = .noBroad nb r0) ∧
    (∀ (nb : fit_nii_ha_lines.HaNoBroad1) (r0 : ℚ) (gb : fit_nii_ha_lines.HaBroad1) (r1 : ℚ)
        (c : Bool), 2.355 * sigmaOf gb.ha_b < 300 →
      (fit_nii_ha_lines.fit_fixed_one_component nb r0 gb r1 c).choice = .noBroad nb r0) ∧
    (∀ (nb : fit_nii_ha_lines.HaNoBroad2) (r0 : ℚ) (gb : fit_nii_ha_lines.HaBroad2) (r1 : ℚ)
        (c : Bool), 2.355 * sigmaOf gb.ha_b < 300 →
      (fit_nii_ha_lines.fit_fixed_two_components nb r0 gb r1 c).choice = .noBroad nb r0) := by
  refine ⟨?_, ?_, ?_, ?_⟩ <;> intro nb r0 gb r1 c h
  · have hc : ¬(del_rchi2 r0 r1 ≥ 20 ∧ sigmaOf gb.ha_b > sigmaOf gb.ha_n ∧
        sigmaOf gb.ha_n ≥ 40 ∧ 2.355 * sigmaOf gb.ha_b ≥ 300) :=
      fun hcond => absurd hcond.2.2.2 (not_le.mpr h)
    simp [fit_nii_ha_lines.fit_free_ha_one_component, hc]
  · have hc : ¬(del_rchi2 r0 r1 ≥ 20 ∧
        sigmaOf (fit_nii_ha_lines.haExchange gb).ha_b >
          sigmaOf (fit_nii_ha_lines.haExchange gb).ha_n ∧
        sigmaOf (fit_nii_ha_lines.haExchange gb).ha_n ≥ 40 ∧
        2.355 * sigmaOf (fit_nii_ha_lines.haExchange gb).ha_b ≥ 300) :=
      fun hcond => absurd hcond.2.2.2 (not_le.mpr h)
    simp [fit_nii_ha_lines.fit_free_ha_two_components, hc]
  · have hc : ¬(del_rchi2 r0 r1 ≥ 20 ∧ sigmaOf gb.ha_b > sigmaOf gb.ha_n ∧
        2.355 * sigmaOf gb.ha_b ≥ 300) :=
      fun hcond => absurd hcond.2.2 (not_le.mpr h)
    simp [fit_nii_ha_lines.fit_fixed_one_component, hc]
  · have hc : ¬(del_rchi2 r0 r1 ≥ 20 ∧ sigmaOf gb.ha_b > sigmaOf gb.ha_n ∧
        2.355 * sigmaOf gb.ha_b ≥ 300) :=
      fun hcond => absurd hcond.2.2 (not_le.mpr h)
    simp [fit_nii_ha_lines.fit_fixed_two_components, hc]

/-- **C3** witness: each of the four hypotheses discharged on a sub-300 km/s
broad component (FWHM ≈ 70.6 km/s). -/
theorem C3_ha_fwhm_floor_witness :
    (2.355 * sigmaOf ((⟨some 0, ⟨1, 1000, 1⟩, ⟨1, 1000, 1⟩, ⟨1, 1000, 1⟩,
        ⟨1, 10000, 1⟩⟩ : fit_nii_ha_lines.HaBroad1)).ha_b < 300 ∧
      (fit_nii_ha_lines.fit_free_ha_one_component
          ⟨some 0, ⟨1, 1000, 1⟩, ⟨1, 1000, 1⟩, ⟨1, 1000, 1⟩⟩ 10
          ⟨some 0, ⟨1, 1000, 1⟩, ⟨1, 1000, 1⟩, ⟨1, 1000, 1⟩, ⟨1, 10000, 1⟩⟩ 1 true).choice =
        .noBroad ⟨some 0, ⟨1, 1000, 1⟩, ⟨1, 1000, 1⟩, ⟨1, 1000, 1⟩⟩ 10) ∧
    (2.355 * sigmaOf (fit_nii_ha_lines.haExchange
        ⟨some 0, some ⟨1, 1000, 1⟩, some ⟨1, 1000, 1⟩, some ⟨1, 1000, 1⟩, some ⟨1, 1000, 1⟩,
          ⟨1, 1000, 1⟩, ⟨1, 20000, 1⟩, ⟨1, 10000, 1⟩⟩).ha_b < 300 ∧
      (fit_nii_ha_lines.fit_free_ha_two_components
          ⟨some 0, ⟨1, 1000, 1⟩, ⟨1, 1000, 1⟩, ⟨1, 1000, 1⟩, ⟨1, 1000, 1⟩, ⟨1, 1000, 1⟩,
            ⟨1, 1000, 1⟩⟩ 10
          ⟨some 0, some ⟨1, 1000, 1⟩, some ⟨1, 1000, 1⟩, some ⟨1, 1000, 1⟩, some ⟨1, 1000, 1⟩,
            ⟨1, 1000, 1⟩, ⟨1, 20000, 1⟩, ⟨1, 10000, 1⟩⟩ 1 true).choice =
        .noBroad ⟨some 0, ⟨1, 1000, 1⟩, ⟨1, 1000, 1⟩, ⟨1, 1000, 1⟩, ⟨1, 1000, 1⟩, ⟨1, 1000, 1⟩,
          ⟨1, 1000, 1⟩⟩ 10) ∧
    (2.355 * sigmaOf ((⟨some 0, ⟨1, 1000, 1⟩, ⟨1, 1000, 1⟩, ⟨1, 1000, 1⟩,
        ⟨1, 10000, 1⟩⟩ : fit_nii_ha_lines.HaBroad1)).ha_b < 300 ∧
      (fit_nii_ha_lines.fit_fixed_one_component
          ⟨some 0, ⟨1, 1000, 1⟩, ⟨1, 1000, 1⟩, ⟨1, 1000, 1⟩⟩ 10
          ⟨some 0, ⟨1, 1000, 1⟩, ⟨1, 1000, 1⟩, ⟨1, 1000, 1⟩, ⟨1, 10000, 1⟩⟩ 1 true).choice =
        .noBroad ⟨some 0, ⟨1, 1000, 1⟩, ⟨1, 1000, 1⟩, ⟨1, 1000, 1⟩⟩ 10) ∧
    (2.355 * sigmaOf ((⟨some 0, some ⟨1, 1000, 1⟩, some ⟨1, 1000, 1⟩, some ⟨1, 1000, 1⟩,
        some ⟨1, 1000, 1⟩, ⟨1, 1000, 1⟩, ⟨1, 20000, 1⟩, ⟨1, 10000, 1⟩⟩ :
        fit_nii_ha_lines.HaBroad2)).ha_b < 300 ∧
      (fit_nii_ha_lines.fit_fixed_two_components
          ⟨some 0, ⟨1, 1000, 1⟩, ⟨1, 1000, 1⟩, ⟨1, 1000, 1⟩, ⟨1, 1000, 1⟩, ⟨1, 1000, 1⟩,
            ⟨1, 1000, 1⟩⟩ 10
          ⟨some 0, some ⟨1, 1000, 1⟩, some ⟨1, 1000, 1⟩, some ⟨1, 1000, 1⟩, some ⟨1, 1000, 1⟩,
            ⟨1, 1000, 1⟩, ⟨1, 20000, 1⟩, ⟨1, 10000, 1⟩⟩ 1 true).choice =
        .noBroad ⟨some 0, ⟨1, 1000, 1⟩, ⟨1, 1000, 1⟩, ⟨1, 1000, 1⟩, ⟨1, 1000, 1⟩, ⟨1, 1000, 1⟩,
          ⟨1, 1000, 1⟩⟩ 10) :=
  by
  have hσ : 2.355 * sigmaOf (⟨1, 10000, 1⟩ : Gauss ℚ) < 300 := by
    norm_num [sigmaOf, mfit.lamspace_to_velspace, mfit.speed_of_light]
  have hsw : ¬(sigmaOf (⟨1, 10000, 1⟩ : Gauss ℚ) < sigmaOf (⟨1, 20000, 1⟩ : Gauss ℚ)) := by
    norm_num [sigmaOf, mfit.lamspace_to_velspace, mfit.speed_of_light]
  have hex : fit_nii_ha_lines.haExchange
      ⟨some 0, some ⟨1, 1000, 1⟩, some ⟨1, 1000, 1⟩, some ⟨1, 1000, 1⟩, some ⟨1, 1000, 1⟩,
        ⟨1, 1000, 1⟩, ⟨1, 20000, 1⟩, ⟨1, 10000, 1⟩⟩ =
      ⟨some 0, some ⟨1, 1000, 1⟩, some ⟨1, 1000, 1⟩, some ⟨1, 1000, 1⟩, some ⟨1, 1000, 1⟩,
        ⟨1, 1000, 1⟩, ⟨1, 20000, 1⟩, ⟨1, 10000, 1⟩⟩ := by
    simp only [fit_nii_ha_lines.haExchange]
    split
    · next hpos => exact absurd hpos hsw
    · rfl
  have hσ2 : 2.355 * sigmaOf (fit_nii_ha_lines.haExchange
      ⟨some 0, some ⟨1, 1000, 1⟩, some ⟨1, 1000, 1⟩, some ⟨1, 1000, 1⟩, some ⟨1, 1000, 1⟩,
        ⟨1, 1000, 1⟩, ⟨1, 20000, 1⟩, ⟨1, 10000, 1⟩⟩).ha_b < 300 := by
    rw [hex]; exact hσ
  exact ⟨⟨hσ, C3_ha_fwhm_floor.1 _ _ _ _ _ hσ⟩,
    ⟨hσ2, C3_ha_fwhm_floor.2.1 _ _ _ _ _ hσ2⟩,
    ⟨hσ, C3_ha_fwhm_floor.2.2.1 _ _ _ _ _ hσ⟩,
    ⟨hσ, C3_ha_fwhm_floor.2.2.2 _ _ _ _ _ hσ⟩⟩

/-- **C4**.  Degrees of freedom are a pure function of the architecture and the
continuum flag: `fit_spectra_iteration` attaches 5/8/4 (with continuum) to
one-component [SII] / two-component [SII] / one-component [OIII] fits, and each
fitting routine passes exactly the same count as `n_free_params` to the reduced
chi-square computation. -/
theorem C4_degrees_of_freedom :
    (∀ bd, emline_fitting.fit_spectra_sii_dof (some 2) true bd = some 5) ∧
    (∀ bd, emline_fitting.fit_spectra_sii_dof (some 4) true bd = some 8) ∧
    (∀ bd, emline_fitting.fit_spectra_oiii_dof (some 2) true bd = some 4) ∧
    (∀ c bd flam mv ivar,
      emline_fitting.fit_spectra_sii_dof (some 2) c bd = some (if c then 5 else 4) ∧
      fit_sii_lines.one_component_rchi2 flam mv ivar c =
        mfit.calculate_red_chi2 flam mv ivar (if c then 5 else 4) ∧
      emline_fitting.fit_spectra_sii_dof (some 4) c bd = some (if c then 8 else 7) ∧
      fit_sii_lines.two_components_rchi2 flam mv ivar c =
        mfit.calculate_red_chi2 flam mv ivar (if c then 8 else 7) ∧
      emline_fitting.fit_spectra_oiii_dof (some 2) c bd = some (if c then 4 else 3) ∧
      fit_oiii_lines.one_component_rchi2 flam mv ivar c =
        mfit.calculate_red_chi2 flam mv ivar (if c then 4 else 3) ∧
      emline_fitting.fit_spectra_oiii_dof (some 4) c bd = some (if c then 7 else 6) ∧
      fit_oiii_lines.two_components_rchi2 flam mv ivar c =
        mfit.calculate_red_chi2 flam mv ivar (if c then 7 else 6)) := by
  refine ⟨fun bd => rfl, fun bd => rfl, fun bd => rfl, fun c bd flam mv ivar => ?_⟩
  cases c <;>
    simp [emline_fitting.fit_spectra_sii_dof, emline_fitting.fit_spectra_oiii_dof,
      fit_sii_lines.one_component_rchi2, fit_sii_lines.two_components_rchi2,
      fit_oiii_lines.one_component_rchi2, fit_oiii_lines.two_components_rchi2]

/-- **C5**.  Every successful [OIII] fit (any output of the tie-respecting
model builders) satisfies `amplitude(oiii5007) = 2.98 * amplitude(oiii4959)`
and `mean(oiii5007) - mean(oiii4959) = 47.934`, and in the two-component fit
the outflow pair satisfies the same two tie relations. -/
theorem C5_oiii_ties :
    ∀ (cont : Option ℚ) (g go : Gauss ℚ),
      (fit_oiii_lines.one_component_model cont g).oiii5007.amplitude =
        2.98 * (fit_oiii_lines.one_component_model cont g).oiii4959.amplitude ∧
      (fit_oiii_lines.one_component_model cont g).oiii5007.mean -
        (fit_oiii_lines.one_component_model cont g).oiii4959.mean = 47.934 ∧
      (fit_oiii_lines.two_components_model cont g go).oiii5007.amplitude =
        2.98 * (fit_oiii_lines.two_components_model cont g go).oiii4959.amplitude ∧
      (fit_oiii_lines.two_components_model cont g go).oiii5007.mean -
        (fit_oiii_lines.two_components_model cont g go).oiii4959.mean = 47.934 ∧
      (fit_oiii_lines.two_components_model cont g go).oiii5007_out.amplitude =
        2.98 * (fit_oiii_lines.two_components_model cont g go).oiii4959_out.amplitude ∧
      (fit_oiii_lines.two_components_model cont g go).oiii5007_out.mean -
        (fit_oiii_lines.two_components_model cont g go).oiii4959_out.mean = 47.934 := by
  intro cont g go
  simp only [fit_oiii_lines.one_component_model, fit_oiii_lines.two_components_model]
  refine ⟨by ring, by ring, by ring, by ring, by ring, by ring⟩

/-- **C6**.  The [SII] doublet mean tie uses the constant 14.329 Å in the
one-component architecture but 14.379 Å in the two-component architecture
(whose outflow pair also uses 14.379), so the post-fit mean difference
`mean(sii6731) - mean(sii6716)` differs between the two fits: the
one-component tie constant contradicts the rest wavelengths
6732.673 − 6718.294 = 14.379 used in the same function. -/
theorem C6_sii_mean_offsets :
    (∀ (cont : Option ℚ) (g : Gauss ℚ) (a : ℚ),
      (fit_sii_lines.one_component_model cont g a).sii6731.mean -
        (fit_sii_lines.one_component_model cont g a).sii6716.mean = 14.329) ∧
    (∀ (cont : Option ℚ) (g : Gauss ℚ) (a : ℚ) (go : Gauss ℚ),
      (fit_sii_lines.two_components_model cont g a go).sii6731.mean -
        (fit_sii_lines.two_components_model cont g a go).sii6716.mean = 14.379 ∧
      (fit_sii_lines.two_components_model cont g a go).sii6731_out.mean -
        (fit_sii_lines.two_components_model cont g a go).sii6716_out.mean = 14.379) ∧
    (14.329 : ℚ) ≠ 14.379 := by
  refine ⟨fun cont g a => ?_, fun cont g a go => ⟨?_, ?_⟩, by norm_num⟩ <;>
    simp only [fit_sii_lines.one_component_model, fit_sii_lines.two_components_model] <;>
    ring

/-- **C9**.  `fit_emline_spectra` runs exactly 100 resampled iterations after
the original fit, and `percent_hb_b` (resp. `percent_ha_b`) equals 100 times
the fraction of those iterations with positive broad-Hβ (resp. broad-Hα)
flux. -/
theorem C9_monte_carlo_percentages :
    ∀ iterFit : ℕ → emline_fitting.IterRow,
      (emline_fitting.fit_emline_spectra_tables iterFit).length = 100 ∧
      emline_fitting.percent_hb_b (emline_fitting.fit_emline_spectra_tables iterFit) =
        100 * ((((emline_fitting.fit_emline_spectra_tables iterFit).filter
            (fun r => decide (r.hb_b_flux > 0))).length : ℚ) / 100) ∧
      emline_fitting.percent_ha_b (emline_fitting.fit_emline_spectra_tables iterFit) =
        100 * ((((emline_fitting.fit_emline_spectra_tables iterFit).filter
            (fun r => decide (r.ha_b_flux > 0))).length : ℚ) / 100) := by
  intro iterFit
  have hlen : (emline_fitting.fit_emline_spectra_tables iterFit).length = 100 := by
    simp [emline_fitting.fit_emline_spectra_tables]
  refine ⟨hlen, ?_, ?_⟩ <;>
  · simp only [emline_fitting.percent_hb_b, emline_fitting.percent_ha_b, hlen]
    ring

/-! ## Aggregation lemmas -/

theorem filterMap_id_replicate_some (n : ℕ) (x : ℝ) :
    (List.replicate n (some x)).filterMap id = List.replicate n x := by
  induction n with
  | zero => rfl
  | succ k ih => simp [List.replicate_succ, ih]

theorem nanmean_replicate (n : ℕ) (hn : 0 < n) (x : ℝ) :
    emline_params.nanmean (List.replicate n (some x)) = some x := by
  have hne : (n : ℝ) ≠ 0 := Nat.cast_ne_zero.mpr hn.ne'
  simp only [emline_params.nanmean, filterMap_id_replicate_some]
  rw [if_neg (by simp [List.replicate_eq_nil_iff, hn.ne'])]
  rw [List.sum_replicate, List.length_replicate, nsmul_eq_mul, mul_div_cancel_left₀ _ hne]

theorem nanstd_replicate (n : ℕ) (hn : 0 < n) (x : ℝ) :
    emline_params.nanstd (List.replicate n (some x)) = some 0 := by
  have hne : (n : ℝ) ≠ 0 := Nat.cast_ne_zero.mpr hn.ne'
  simp only [emline_params.nanstd, filterMap_id_replicate_some]
  rw [if_neg (by simp [List.replicate_eq_nil_iff, hn.ne'])]
  rw [List.sum_replicate, List.length_replicate, nsmul_eq_mul,
    mul_div_cancel_left₀ _ hne, List.map_replicate]
  simp [List.sum_replicate, Real.sqrt_zero]

theorem mask_filterMap (rs : List emline_params.CompRow) (f : emline_params.CompRow → ℝ) :
    (rs.map (fun r => if emline_params.condB r then some (f r) else none)).filterMap id =
      (emline_params.selected rs).map f := by
  induction rs with
  | nil => rfl
  | cons a t ih =>
    cases h : emline_params.condB a <;>
      simp [emline_params.selected, List.filter_cons, h] <;>
      simpa [emline_params.selected] using ih

theorem nanmean_mask (rs : List emline_params.CompRow) (f : emline_params.CompRow → ℝ) :
    emline_params.nanmean (rs.map (fun r => if emline_params.condB r then some (f r) else none)) =
      emline_params.listMean ((emline_params.selected rs).map f) := by
  simp only [emline_params.nanmean, emline_params.listMean, mask_filterMap]

theorem nanstd_mask (rs : List emline_params.CompRow) (f : emline_params.CompRow → ℝ) :
    emline_params.nanstd (rs.map (fun r => if emline_params.condB r then some (f r) else none)) =
      emline_params.listStd ((emline_params.selected rs).map f) := by
  simp only [emline_params.nanstd, emline_params.listStd, mask_filterMap]

theorem get_parameters_keys (g : List (String × Gauss ℝ)) (ms : List String) :
    (emline_params.get_parameters g ms).map Prod.fst =
      ms.flatMap emline_params.component_keys := by
  induction ms with
  | nil => rfl
  | cons m t ih =>
    simp only [emline_params.get_parameters, List.flatMap_cons, List.map_append] at ih ⊢
    cases h : g.find? (fun p => p.1 == m) <;>
      simp [h, ih, emline_params.component_keys]

/-! ## Remaining claims -/

/-- **C7** (amended).  `get_bestfit_parameters` takes its per-component
statistics over exactly the iterations whose amplitude, mean and stddev are
simultaneously positive (the std statistics through the squared stddevs, the
recomputed flux/sigma from those aggregates); it emits the all-zero record
exactly when all amplitudes, or all means, or all stddevs are `isclose` to
zero, and an all-degenerate input that escapes that test yields NaN, not
zero. -/
theorem C7_aggregation_filter :
    ∀ rs : List emline_params.CompRow,
      (emline_params.allzero rs →
        emline_params.get_bestfit_component rs = emline_params.zeroAgg) ∧
      (¬emline_params.allzero rs →
        (emline_params.get_bestfit_component rs).amplitude =
          emline_params.listMean ((emline_params.selected rs).map (fun r => r.amplitude)) ∧
        (emline_params.get_bestfit_component rs).amplitude_err =
          emline_params.listStd ((emline_params.selected rs).map (fun r => r.amplitude)) ∧
        (emline_params.get_bestfit_component rs).mean =
          emline_params.listMean ((emline_params.selected rs).map (fun r => r.mean)) ∧
        (emline_params.get_bestfit_component rs).mean_err =
          emline_params.listStd ((emline_params.selected rs).map (fun r => r.mean)) ∧
        (emline_params.get_bestfit_component rs).std =
          (emline_params.listMean
            ((emline_params.selected rs).map (fun r => r.std ^ 2))).map Real.sqrt ∧
        (emline_params.get_bestfit_component rs).std_err =
          (emline_params.listStd
            ((emline_params.selected rs).map (fun r => r.std ^ 2))).map Real.sqrt ∧
        (emline_params.get_bestfit_component rs).flux_fits =
          emline_params.listMean ((emline_params.selected rs).map (fun r => r.flux)) ∧
        (emline_params.get_bestfit_component rs).flux_err_fits =
          emline_params.listStd ((emline_params.selected rs).map (fun r => r.flux)) ∧
        (emline_params.get_bestfit_component rs).sigma_fits =
          emline_params.listMean ((emline_params.selected rs).map (fun r => r.sigma)) ∧
        (emline_params.get_bestfit_component rs).sigma_err_fits =
          emline_params.listStd ((emline_params.selected rs).map (fun r => r.sigma))) := by
  intro rs
  constructor
  · intro h
    simp only [emline_params.get_bestfit_component]
    rw [if_pos h]
  · intro h
    simp only [emline_params.get_bestfit_component]
    rw [if_neg h]
    refine ⟨?_, ?_, ?_, ?_, ?_, ?_, ?_, ?_, ?_, ?_⟩ <;>
      simp only [nanmean_mask, nanstd_mask]

/-- **C7** counterexample: two iterations, each degenerate (no simultaneous
positivity of amplitude, mean, stddev), but with neither all amplitudes, nor
all means, nor all stddevs close to zero — the aggregated amplitude is NaN
(`none`), not the zero the claim promises for all-degenerate input. -/
theorem C7_counterexample :
    (∀ r ∈ [(⟨1, 0, 1, 0, 0⟩ : emline_params.CompRow), ⟨0, 1, 1, 0, 0⟩],
        ¬(0 < r.amplitude ∧ 0 < r.mean ∧ 0 < r.std)) ∧
    (emline_params.get_bestfit_component
        [(⟨1, 0, 1, 0, 0⟩ : emline_params.CompRow), ⟨0, 1, 1, 0, 0⟩]).amplitude = none := by
  have hc1 : emline_params.condB ⟨1, 0, 1, 0, 0⟩ = false := by
    simp only [emline_params.condB, decide_eq_false_iff_not]
    norm_num
  have hc2 : emline_params.condB ⟨0, 1, 1, 0, 0⟩ = false := by
    simp only [emline_params.condB, decide_eq_false_iff_not]
    norm_num
  have hnz : ¬ emline_params.allzero
      [(⟨1, 0, 1, 0, 0⟩ : emline_params.CompRow), ⟨0, 1, 1, 0, 0⟩] := by
    simp only [emline_params.allzero, emline_params.isCloseZero]
    push_neg
    refine ⟨⟨⟨1, 0, 1, 0, 0⟩, by simp, by norm_num⟩,
      ⟨⟨0, 1, 1, 0, 0⟩, by simp, by norm_num⟩,
      ⟨⟨1, 0, 1, 0, 0⟩, by simp, by norm_num⟩⟩
  constructor
  · intro r hr
    simp only [List.mem_cons, List.not_mem_nil, or_false] at hr
    rcases hr with rfl | rfl <;> norm_num
  · simp only [emline_params.get_bestfit_component]
    rw [if_neg hnz]
    simp [hc1, hc2, emline_params.nanmean]

/-- **C7** witness: the all-zero branch on a single zero record, and the
filtered-statistics branch on a single positive record. -/
theorem C7_aggregation_filter_witness :
    emline_params.allzero [(⟨0, 0, 0, 0, 0⟩ : emline_params.CompRow)] ∧
    emline_params.get_bestfit_component [(⟨0, 0, 0, 0, 0⟩ : emline_params.CompRow)] =
      emline_params.zeroAgg ∧
    ¬ emline_params.allzero [(⟨1, 2, 3, 4, 5⟩ : emline_params.CompRow)] ∧
    (emline_params.get_bestfit_component [(⟨1, 2, 3, 4, 5⟩ : emline_params.CompRow)]).amplitude =
      emline_params.listMean
        ((emline_params.selected [(⟨1, 2, 3, 4, 5⟩ : emline_params.CompRow)]).map
          (fun r => r.amplitude)) := by
  have hz : emline_params.allzero [(⟨0, 0, 0, 0, 0⟩ : emline_params.CompRow)] := by
    refine Or.inl ?_
    intro x hx
    simp only [List.mem_singleton] at hx
    subst hx
    norm_num [emline_params.isCloseZero]
  have hnz : ¬ emline_params.allzero [(⟨1, 2, 3, 4, 5⟩ : emline_params.CompRow)] := by
    simp only [emline_params.allzero, emline_params.isCloseZero]
    push_neg
    refine ⟨⟨⟨1, 2, 3, 4, 5⟩, by simp, by norm_num⟩,
      ⟨⟨1, 2, 3, 4, 5⟩, by simp, by norm_num⟩,
      ⟨⟨1, 2, 3, 4, 5⟩, by simp, by norm_num⟩⟩
  exact ⟨hz, (C7_aggregation_filter _).1 hz, hnz, ((C7_aggregation_filter _).2 hnz).1⟩

/-- **C8** (amended).  Feeding `n ≥ 1` identical copies of one record whose
amplitude, mean and stddev all exceed the `isclose` tolerance `1e-8`, and
whose flux and sigma entries are derived from its amplitude/stddev/mean as
`get_parameters` produces them, yields mean = the record's value and error = 0
for every quantity. -/
theorem C8_identical_iterations :
    ∀ (n : ℕ) (r : emline_params.CompRow), 0 < n →
      1e-8 < r.amplitude → 1e-8 < r.mean → 1e-8 < r.std →
      r.flux = mfit.compute_emline_flux r.amplitude r.std →
      r.sigma = mfit.lamspace_to_velspace r.std r.mean →
      emline_params.get_bestfit_component (List.replicate n r) =
        { amplitude := some r.amplitude, amplitude_err := some 0,
          mean := some r.mean, mean_err := some 0,
          std := some r.std, std_err := some 0,
          sigma := some r.sigma, sigma_err := some 0,
          flux := some r.flux, flux_err := some 0,
          flux_fits := some r.flux, flux_err_fits := some 0,
          sigma_fits := some r.sigma, sigma_err_fits := some 0 } := by
  intro n r hn ha hm hs hf hσ
  have hε : (0 : ℝ) < 1e-8 := by norm_num
  have ha0 : 0 < r.amplitude := hε.trans ha
  have hm0 : 0 < r.mean := hε.trans hm
  have hs0 : 0 < r.std := hε.trans hs
  have hc : emline_params.condB r = true := by
    simp only [emline_params.condB, decide_eq_true_eq]
    exact ⟨ha0, hm0, hs0⟩
  have hmem : r ∈ List.replicate n r := List.mem_replicate.mpr ⟨hn.ne', rfl⟩
  have hnz : ¬ emline_params.allzero (List.replicate n r) := by
    intro hcontra
    rcases hcontra with h | h | h <;> have hx := h r hmem <;>
      simp only [emline_params.isCloseZero] at hx
    · exact absurd (ha.trans_le (le_abs_self _)) (not_lt.mpr hx)
    · exact absurd (hm.trans_le (le_abs_self _)) (not_lt.mpr hx)
    · exact absurd (hs.trans_le (le_abs_self _)) (not_lt.mpr hx)
  have hmask : ∀ f : emline_params.CompRow → ℝ,
      (List.replicate n r).map (fun x => if emline_params.condB x then some (f x) else none) =
        List.replicate n (some (f r)) := by
    intro f
    rw [List.map_replicate, hc]
    simp
  simp only [emline_params.get_bestfit_component]
  rw [if_neg hnz]
  simp only [hmask, nanmean_replicate n hn, nanstd_replicate n hn, Option.map_some']
  rw [Real.sqrt_sq hs0.le, Real.sqrt_zero]
  simp only [mfit.compute_emline_flux_err, mfit.lamspace_to_velspace_err, zero_div]
  norm_num [hf, hσ]

/-- **C8** counterexample: a record with positive but tiny
(≤ `isclose` tolerance) amplitude trips the all-zero branch, so the aggregated
mean is 0 instead of the record's value 5, although amplitude, mean and stddev
are all positive. -/
theorem C8_counterexample :
    (0 : ℝ) < 1/10^9 ∧ (0 : ℝ) < 5 ∧ (0 : ℝ) < 1 ∧
    (emline_params.get_bestfit_component (List.replicate 1
        ⟨1/10^9, 5, 1, mfit.lamspace_to_velspace 1 5,
          mfit.compute_emline_flux (1/10^9) 1⟩)).mean = some 0 ∧
    (5 : ℝ) ≠ 0 := by
  have hz : emline_params.allzero (List.replicate 1
      (⟨1/10^9, 5, 1, mfit.lamspace_to_velspace 1 5,
        mfit.compute_emline_flux (1/10^9) 1⟩ : emline_params.CompRow)) := by
    refine Or.inl ?_
    intro x hx
    rw [List.mem_replicate] at hx
    rw [hx.2]
    simp only [emline_params.isCloseZero]
    rw [abs_of_pos (by norm_num)]
    norm_num
  refine ⟨by norm_num, by norm_num, by norm_num, ?_, by norm_num⟩
  simp only [emline_params.get_bestfit_component]
  rw [if_pos hz]
  rfl

/-- **C8** witness: two identical copies of the record
`(1, 2, 3, sigma(3,2), flux(1,3))`. -/
theorem C8_identical_iterations_witness :
    (0 < 2) ∧ ((1e-8 : ℝ) < 1) ∧ ((1e-8 : ℝ) < 2) ∧ ((1e-8 : ℝ) < 3) ∧
    emline_params.get_bestfit_component (List.replicate 2
        ⟨1, 2, 3, mfit.lamspace_to_velspace 3 2, mfit.compute_emline_flux 1 3⟩) =
      { amplitude := some 1, amplitude_err := some 0, mean := some 2, mean_err := some 0,
        std := some 3, std_err := some 0,
        sigma := some (mfit.lamspace_to_velspace 3 2), sigma_err := some 0,
        flux := some (mfit.compute_emline_flux 1 3), flux_err := some 0,
        flux_fits := some (mfit.compute_emline_flux 1 3), flux_err_fits := some 0,
        sigma_fits := some (mfit.lamspace_to_velspace 3 2), sigma_err_fits := some 0 } :=
  ⟨by norm_num, by norm_num, by norm_num, by norm_num,
    C8_identical_iterations 2 _ (by norm_num) (by norm_num) (by norm_num) (by norm_num) rfl rfl⟩

/-- **C10** (amended).  Whenever `fit_spectra_iteration` returns, the
parameter table has the same fixed column set: five entries per expected
component (18 components), with explicit zeros for components absent from the
winning model, plus one continuum and one dof column per complex; with
`fit_cont = False` it always returns and every continuum entry is 0.  With
`fit_cont = True` it raises (returns no table) exactly when a winning model
lacks its `{complex}_cont` term, as the role-exchange-rebuilt broad winners
do. -/
theorem C10_fixed_parameter_table :
    (∀ gfit_hb gfit_oiii gfit_nii_ha gfit_sii hb_dof oiii_dof nii_ha_dof sii_dof fit_cont t,
      emline_fitting.fit_spectra_iteration_params gfit_hb gfit_oiii gfit_nii_ha gfit_sii
          hb_dof oiii_dof nii_ha_dof sii_dof fit_cont = some t →
        t.map Prod.fst = emline_fitting.fixed_columns) ∧
    (∀ gfit_hb gfit_oiii gfit_nii_ha gfit_sii hb_dof oiii_dof nii_ha_dof sii_dof,
      emline_fitting.fit_spectra_iteration_params gfit_hb gfit_oiii gfit_nii_ha gfit_sii
          hb_dof oiii_dof nii_ha_dof sii_dof true = none ↔
        (gfit_hb.cont = none ∨ gfit_oiii.cont = none ∨ gfit_nii_ha.cont = none ∨
          gfit_sii.cont = none)) ∧
    (emline_fitting.hb_models ++ emline_fitting.oiii_models ++ emline_fitting.nii_ha_models ++
        emline_fitting.sii_models).length = 18 ∧
    (∀ (g : List (String × Gauss ℝ)) (ms : List String) (m : String), m ∈ ms →
      g.find? (fun p => p.1 == m) = none →
        (m ++ "_amplitude", (0 : ℝ)) ∈ emline_params.get_parameters g ms ∧
        (m ++ "_mean", (0 : ℝ)) ∈ emline_params.get_parameters g ms ∧
        (m ++ "_std", (0 : ℝ)) ∈ emline_params.get_parameters g ms ∧
        (m ++ "_sigma", (0 : ℝ)) ∈ emline_params.get_parameters g ms ∧
        (m ++ "_flux", (0 : ℝ)) ∈ emline_params.get_parameters g ms) ∧
    (∀ gfit_hb gfit_oiii gfit_nii_ha gfit_sii hb_dof oiii_dof nii_ha_dof sii_dof, ∃ t,
      emline_fitting.fit_spectra_iteration_params gfit_hb gfit_oiii gfit_nii_ha gfit_sii
          hb_dof oiii_dof nii_ha_dof sii_dof false = some t ∧
      ("hb_continuum", (0 : ℝ)) ∈ t ∧ ("oiii_continuum", (0 : ℝ)) ∈ t ∧
      ("nii_ha_continuum", (0 : ℝ)) ∈ t ∧ ("sii_continuum", (0 : ℝ)) ∈ t) := by
  refine ⟨?_, ?_, rfl, ?_, ?_⟩
  · intro gfit_hb gfit_oiii gfit_nii_ha gfit_sii hb_dof oiii_dof nii_ha_dof sii_dof fit_cont t h
    simp only [emline_fitting.fit_spectra_iteration_params] at h
    split at h
    · cases h
      simp [List.map_append, get_parameters_keys, emline_fitting.fixed_columns]
    · cases h
  · intro gfit_hb gfit_oiii gfit_nii_ha gfit_sii hb_dof oiii_dof nii_ha_dof sii_dof
    simp only [emline_fitting.fit_spectra_iteration_params]
    cases hhb : gfit_hb.cont <;> cases hoi : gfit_oiii.cont <;>
      cases hni : gfit_nii_ha.cont <;> cases hsi : gfit_sii.cont <;> simp
  · intro g ms m h1 h2
    refine ⟨?_, ?_, ?_, ?_, ?_⟩ <;>
    · simp only [emline_params.get_parameters]
      rw [List.mem_flatMap]
      exact ⟨m, h1, by simp [h2]⟩
  · intro gfit_hb gfit_oiii gfit_nii_ha gfit_sii hb_dof oiii_dof nii_ha_dof sii_dof
    refine ⟨_, rfl, ?_, ?_, ?_, ?_⟩ <;> simp [List.mem_append]

/-- **C10** counterexample: on the free two-component Hβ path with
`fit_cont = True`, the accepted with-broad winner is the exchange rebuild,
which carries no `hb_cont` term; the parameter assembly's unconditional
`gfit_hb['hb_cont']` read then raises, so this call returns no parameter table
at all — refuting "every call returns a table with the fixed column set". -/
theorem C10_counterexample :
    (fit_hb_line.fit_free_two_components ⟨some 0, ⟨1, 1000, 1⟩, ⟨1, 1000, 3⟩⟩ 10
        ⟨some 0, ⟨1, 1000, 1⟩, ⟨1, 1000, 3⟩, ⟨1, 1000, 2⟩⟩ 1 true).choice =
      .broad ⟨none, ⟨1, 1000, 1⟩, ⟨1, 1000, 2⟩, ⟨1, 1000, 3⟩⟩ 1 ∧
    emline_fitting.fit_spectra_iteration_params
        ⟨[("hb_n", ⟨1, 1000, 1⟩), ("hb_out", ⟨1, 1000, 2⟩), ("hb_b", ⟨1, 1000, 3⟩)], none⟩
        ⟨[], some 0⟩ ⟨[], some 0⟩ ⟨[], some 0⟩ 10 4 6 8 true = none := by
  have hsw : sigmaOf (⟨1, 1000, 2⟩ : Gauss ℚ) < sigmaOf (⟨1, 1000, 3⟩ : Gauss ℚ) := by
    norm_num [sigmaOf, mfit.lamspace_to_velspace, mfit.speed_of_light]
  have hex : fit_hb_line.hbExchange ⟨some 0, ⟨1, 1000, 1⟩, ⟨1, 1000, 3⟩, ⟨1, 1000, 2⟩⟩ =
      ⟨none, ⟨1, 1000, 1⟩, ⟨1, 1000, 2⟩, ⟨1, 1000, 3⟩⟩ := by
    simp only [fit_hb_line.hbExchange]
    split
    · rfl
    · next hneg => exact absurd hsw hneg
  have hdel : del_rchi2 (10 : ℚ) 1 ≥ 20 := by norm_num [del_rchi2]
  have hpos : del_rchi2 (10 : ℚ) 1 ≥ 20 ∧
      sigmaOf (fit_hb_line.hbExchange
          ⟨some 0, ⟨1, 1000, 1⟩, ⟨1, 1000, 3⟩, ⟨1, 1000, 2⟩⟩).hb_b >
        sigmaOf (fit_hb_line.hbExchange
          ⟨some 0, ⟨1, 1000, 1⟩, ⟨1, 1000, 3⟩, ⟨1, 1000, 2⟩⟩).hb_n ∧
      sigmaOf (fit_hb_line.hbExchange
          ⟨some 0, ⟨1, 1000, 1⟩, ⟨1, 1000, 3⟩, ⟨1, 1000, 2⟩⟩).hb_n ≥ 40 := by
    refine ⟨hdel, ?_, ?_⟩ <;> rw [hex] <;>
      norm_num [sigmaOf, mfit.lamspace_to_velspace, mfit.speed_of_light]
  refine ⟨?_, ?_⟩
  · simp only [fit_hb_line.fit_free_two_components]
    split
    · rw [hex]
    · next hneg => exact absurd hpos hneg
  · rfl

/-- **C10** witness: the absent-component zeros on an empty model, and the
fixed column set on the always-returning `fit_cont = False` path. -/
theorem C10_fixed_parameter_table_witness :
    "hb_n" ∈ ["hb_n"] ∧
    (List.find? (fun p => p.1 == "hb_n") ([] : List (String × Gauss ℝ)) = none) ∧
    (("hb_n_amplitude", (0 : ℝ)) ∈ emline_params.get_parameters [] ["hb_n"] ∧
      ("hb_n_mean", (0 : ℝ)) ∈ emline_params.get_parameters [] ["hb_n"] ∧
      ("hb_n_std", (0 : ℝ)) ∈ emline_params.get_parameters [] ["hb_n"] ∧
      ("hb_n_sigma", (0 : ℝ)) ∈ emline_params.get_parameters [] ["hb_n"] ∧
      ("hb_n_flux", (0 : ℝ)) ∈ emline_params.get_parameters [] ["hb_n"]) ∧
    (∃ t, emline_fitting.fit_spectra_iteration_params ⟨[], some 0⟩ ⟨[], some 0⟩ ⟨[], some 0⟩
        ⟨[], some 0⟩ 0 0 0 0 false = some t ∧
      t.map Prod.fst = emline_fitting.fixed_columns) := by
  refine ⟨by simp, rfl,
    C10_fixed_parameter_table.2.2.2.1 [] ["hb_n"] "hb_n" (by simp) rfl, ?_⟩
  obtain ⟨t, ht, -, -, -, -⟩ := C10_fixed_parameter_table.2.2.2.2
    ⟨[], some 0⟩ ⟨[], some 0⟩ ⟨[], some 0⟩ ⟨[], some 0⟩ 0 0 0 0
  exact ⟨t, ht, C10_fixed_parameter_table.1 _ _ _ _ _ _ _ _ _ t ht⟩

end DesiFit
